import Mathlib

/-!
Verification of the large-diff commit-message pipeline of the ai-cli
repository (src/ai_client.rs and src/commands/commit.rs).

Strings are modelled through their character lists, with helper
functions mirroring the Rust standard-library operations used by the
source (trim, lines, starts_with, split_once, contains).  The external
completion provider is modelled as an oracle assigning to each
summarization unit an outcome (a response, a provider error, or a
timeout); given that oracle, the pipeline in the source is a
deterministic sequential computation, because the source builds plain
futures and awaits them one at a time in submission order.
-/

namespace AiCli

/-- Whitespace test used by trimming, as in Rust `char::is_whitespace`
restricted to the ASCII whitespace actually relevant here. -/
def isWhite (c : Char) : Bool :=
  c == ' ' || c == '\t' || c == '\n' || c == '\r'

/-- Trim whitespace from both ends of a character list. -/
def trimChars (l : List Char) : List Char :=
  ((l.dropWhile isWhite).reverse.dropWhile isWhite).reverse

/-- Rust `str::trim` on the string model. -/
def rust_trim (s : String) : String :=
  String.mk (trimChars s.data)

/-- Character-list version of prefix test: first list at head of second. -/
def leadEq : List Char → List Char → Bool
  | [], _ => true
  | _ :: _, [] => false
  | a :: as, b :: bs => a == b && leadEq as bs

/-- Rust `str::starts_with`. -/
def startsWithStr (s p : String) : Bool :=
  leadEq p.data s.data

/-- Occurrence of the second list as a contiguous run of the first. -/
def hasSubChars : List Char → List Char → Bool
  | h, n =>
    leadEq n h ||
      match h with
      | [] => false
      | _ :: hs => hasSubChars hs n

/-- Rust `str::contains` with a string pattern. -/
def strContains (h n : String) : Bool :=
  hasSubChars h.data n.data

/-- Split a character list at the first occurrence of a character,
returning the parts before and after it. -/
def splitOnceChar (c : Char) : List Char → Option (List Char × List Char)
  | [] => none
  | a :: as =>
    if a == c then some ([], as)
    else
      match splitOnceChar c as with
      | some (pre, post) => some (a :: pre, post)
      | none => none

/-- Rust `str::split_once` at a colon. -/
def splitOnceColon (s : String) : Option (String × String) :=
  match splitOnceChar ':' s.data with
  | some (pre, post) => some (String.mk pre, String.mk post)
  | none => none

/-- A finished line of Rust `str::lines`: the accumulator holds the line
reversed; one carriage return directly before the line feed is removed. -/
def finishLine (cur : List Char) : List Char :=
  match cur with
  | '\r' :: rest => rest.reverse
  | _ => cur.reverse

/-- Worker for `rustLines`: walks the text, cutting at line feeds; a final
line without terminator keeps a trailing carriage return, and a trailing
line feed produces no extra empty line. -/
def linesGo : List Char → List Char → List (List Char)
  | cur, [] =>
    match cur with
    | [] => []
    | _ => [cur.reverse]
  | cur, c :: cs =>
    if c == '\n' then finishLine cur :: linesGo [] cs
    else linesGo (c :: cur) cs

/-- Rust `str::lines` on the string model. -/
def rustLines (s : String) : List String :=
  (linesGo [] s.data).map String.mk

/-- Data model: aggregate statistics of the staged diff.
Field shapes fixed by their construction and use in the source. -/
structure DiffStats where
  files_changed : Nat
  lines_added : Nat
  lines_deleted : Nat
deriving DecidableEq

/-- Data model: one size-bounded slice of the diff with the names of the
files whose blocks it contains. -/
structure DiffSegment where
  content : String
  files : List String
deriving DecidableEq

/-- Data model: one parsed per-file summary line. -/
structure FileSummary where
  filename : String
  summary : String
deriving DecidableEq

/-- Fixed placeholder summary text of the fallback path in
`parse_file_summaries` (src/ai_client.rs line 245). -/
def fallbackSummaryText : String := "Êñá‰ª∂Â∑≤‰øÆÊîπ"

/-- The accepted filename and summary pairs of one provider response:
the loop of `parse_file_summaries` (src/ai_client.rs lines 221 to 238),
before the fallback test.  Each response line is trimmed; empty lines and
template echoes are skipped; the line is split at the first colon, both
parts are trimmed, and the pair is pushed when some expected file contains
the candidate filename or conversely. -/
def accept_line_step (expected_files : List String) (summaries : List FileSummary)
    (line : String) : List FileSummary :=
  let line := rust_trim line
  if line.isEmpty || startsWithStr line "ËæìÂá∫Ê†ºÂºè" || startsWithStr line "Á§∫‰æã" then
    summaries
  else
    match splitOnceColon line with
    | some (filename, summary) =>
      let filename := rust_trim filename
      let summary := rust_trim summary
      if expected_files.any (fun f => strContains f filename || strContains filename f) then
        summaries ++ [⟨filename, summary⟩]
      else
        summaries
    | none => summaries

/-- The loop of `parse_file_summaries` over the response lines. -/
def accepted_summaries (content : String) (expected_files : List String) : List FileSummary :=
  (rustLines content).foldl (accept_line_step expected_files) []

/-- `parse_file_summaries` (src/ai_client.rs lines 220 to 251): the
accepted pairs, replaced by one placeholder summary per expected file when
no pair was accepted and the expected list is non-empty. -/
def parse_file_summaries (content : String) (expected_files : List String) : List FileSummary :=
  let summaries := accepted_summaries content expected_files
  if summaries.isEmpty && !expected_files.isEmpty then
    expected_files.map (fun filename => ⟨filename, fallbackSummaryText⟩)
  else
    summaries

/-- Decidable equality of results, for concrete evaluation. -/
instance {ε α : Type} [DecidableEq ε] [DecidableEq α] : DecidableEq (Except ε α)
  | Except.error a, Except.error b =>
    if h : a = b then Decidable.isTrue (by rw [h])
    else Decidable.isFalse (fun hc => h (Except.error.inj hc))
  | Except.error _, Except.ok _ => Decidable.isFalse (fun hc => Except.noConfusion hc)
  | Except.ok _, Except.error _ => Decidable.isFalse (fun hc => Except.noConfusion hc)
  | Except.ok a, Except.ok b =>
    if h : a = b then Decidable.isTrue (by rw [h])
    else Decidable.isFalse (fun hc => h (Except.ok.inj hc))

/-- The result type of `parse_file_summaries` in the source is a Result;
the function ends in `Ok(summaries)` and has no error return. -/
def parse_file_summaries_result (content : String) (expected_files : List String) :
    Except String (List FileSummary) :=
  Except.ok (parse_file_summaries content expected_files)

/-- The two provider clients of `AiClientType` (src/ai_client.rs lines
10 to 13); only the error-message prefix of the completion call depends
on the case. -/
inductive AiClientKind
  | ollama
  | openai
deriving DecidableEq

/-- Outcome of one external completion call, as observed by a
summarization unit: the provider answered (possibly with no message
content), the provider or transport failed, or the per-unit timeout
elapsed first.  This is the oracle for the external world. -/
inductive UnitOutcome
  | completed (content : Option String)
  | providerError (msg : String)
  | timedOut

/-- Error text of a failed completion call in `summarize_segment`
(src/ai_client.rs lines 200 to 209). -/
def apiErrorText : AiClientKind → String → String
  | .ollama, e => "Ollama API error: " ++ e
  | .openai, e => "OpenAI API error: " ++ e

/-- One summarization unit (the task body of `summarize_diff_segments`,
src/ai_client.rs lines 154 to 167, together with `summarize_segment`,
lines 184 to 217): a timeout yields the timeout error with the
configured seconds; a provider failure yields the provider error text;
a response without content yields the no-content error; otherwise the
response is parsed against the segment file list. -/
def run_unit (kind : AiClientKind) (timeout_secs : Nat) (outcome : UnitOutcome)
    (segment : DiffSegment) : Except String (List FileSummary) :=
  match outcome with
  | .timedOut => Except.error ("Request timeout after " ++ Nat.repr timeout_secs ++ "s")
  | .providerError e => Except.error (apiErrorText kind e)
  | .completed none => Except.error "No response content from AI"
  | .completed (some content) => parse_file_summaries_result content segment.files

/-- The await loop of `summarize_diff_segments` (src/ai_client.rs lines
172 to 177): the tasks are plain futures, polled one at a time in
submission order, so unit `n` runs to completion before unit `n + 1`
starts; the first error returns early and later units never run.  The
`behavior` oracle assigns each unit index its external outcome. -/
def summarize_units (kind : AiClientKind) (timeout_secs : Nat)
    (behavior : Nat → UnitOutcome) : Nat → List DiffSegment → Except String (List FileSummary)
  | _, [] => Except.ok []
  | i, segment :: rest =>
    match run_unit kind timeout_secs (behavior i) segment with
    | Except.error e => Except.error e
    | Except.ok segment_summaries =>
      match summarize_units kind timeout_secs behavior (i + 1) rest with
      | Except.error e => Except.error e
      | Except.ok more => Except.ok (segment_summaries ++ more)

/-- `summarize_diff_segments` (src/ai_client.rs lines 137 to 181) under
the oracle model. -/
def summarize_diff_segments (kind : AiClientKind) (timeout_secs : Nat)
    (behavior : Nat → UnitOutcome) (segments : List DiffSegment) :
    Except String (List FileSummary) :=
  summarize_units kind timeout_secs behavior 0 segments

/-- The stats line of `generate_final_commit_message`
(src/ai_client.rs lines 255 to 258). -/
def stats_text (stats : DiffStats) : String :=
  Nat.repr stats.files_changed ++ " files changed, " ++
    Nat.repr stats.lines_added ++ " insertions(+), " ++
    Nat.repr stats.lines_deleted ++ " deletions(-)"

/-- The file-details block of `generate_final_commit_message`
(src/ai_client.rs lines 260 to 267): bullet lines pushed for the first
ten summaries, then one trailer line when more than ten exist. -/
def file_details (file_summaries : List FileSummary) : String :=
  let d := (file_summaries.take 10).foldl
    (fun acc s => acc ++ ("- " ++ s.filename ++ ": " ++ s.summary ++ "\n")) ""
  if file_summaries.length > 10 then
    d ++ ("- ... and " ++ Nat.repr (file_summaries.length - 10) ++ " more files\n")
  else
    d

/-- The request body built by `generate_final_commit_message`
(src/ai_client.rs lines 269 to 272); the function then sends exactly
this prompt in one completion call. -/
def generate_final_commit_message_prompt (stats : DiffStats)
    (file_summaries : List FileSummary) : String :=
  "Âü∫‰∫é‰ª•‰∏ã‰ø°ÊÅØÁîüÊàêcommit messageÔºö\n\nÁªüËÆ°ÊëòË¶ÅÔºö\n" ++ stats_text stats ++
    "\n\nÊñá‰ª∂ÂèòÊõ¥ËØ¶ÊÉÖÔºö\n" ++ file_details file_summaries ++
    "\n\nÁîüÊàêÁ¨¶Âêàconventional commitsÊ†ºÂºèÁöÑ‰∏ÄË°åcommit message„ÄÇ\nÊèèËø∞ÂøÖÈ°ª‰ª•Â∞èÂÜôÂ≠óÊØçÂºÄÂ§¥Ôºå‰∏çË∂ÖËøá72Â≠óÁ¨¶„ÄÇ"

/-- Suggestion text appended by `handle_commit` to a summarization
error (src/commands/commit.rs lines 70 to 79). -/
def analyzeFailText (e : String) : String :=
  "Failed to analyze diff segments: " ++ e ++
    "\n\n💡 Suggestions:\n• Try staging fewer files at once: git add <specific-files>\n• Ensure your network connection is stable\n• Check if your AI provider is responding correctly"

/-- The large-diff branch of `handle_commit` (src/commands/commit.rs
lines 55 to 82): with the segments of the staged diff already computed,
an empty segment list is a hard error; otherwise the segments are
summarized and the final prompt is sent, with `finalResponse` the
oracle for that last completion call. -/
def handle_commit_large_diff (kind : AiClientKind) (timeout_secs : Nat)
    (behavior : Nat → UnitOutcome) (stats : DiffStats) (segments : List DiffSegment)
    (finalResponse : String → Except String String) : Except String String :=
  if segments.isEmpty then
    Except.error "Failed to segment diff for processing"
  else
    match summarize_diff_segments kind timeout_secs behavior segments with
    | Except.error e => Except.error (analyzeFailText e)
    | Except.ok file_summaries =>
      finalResponse (generate_final_commit_message_prompt stats file_summaries)

/-- Spec side: the known header markers of the instruction template
whose echoes are discarded. -/
def templateMarkers : List String := ["ËæìÂá∫Ê†ºÂºè", "Á§∫‰æã"]

/-- Spec side: fuzzy filename match by substring containment in either
direction between the candidate and an expected file. -/
def fuzzyMatchSpec (expected_files : List String) (candidate : String) : Bool :=
  expected_files.any (fun f => strContains f candidate || strContains candidate f)

/-- Spec side, following the words of the specification: trim the line;
discard it when blank or when it starts with a known template header
marker; otherwise split at the first colon into a candidate filename and
candidate summary, trim both, and accept the pair exactly when the
candidate filename fuzzily matches some expected file. -/
def parseLineSpec (expected_files : List String) (line : String) : Option FileSummary :=
  let t := rust_trim line
  if t.isEmpty || templateMarkers.any (fun m => startsWithStr t m) then
    none
  else
    match splitOnceColon t with
    | none => none
    | some (f, s) =>
      let f := rust_trim f
      let s := rust_trim s
      if fuzzyMatchSpec expected_files f then some ⟨f, s⟩ else none

/-- Spec side: one rendered bullet line of the final prompt. -/
def bullet_line (s : FileSummary) : String :=
  "- " ++ s.filename ++ ": " ++ s.summary ++ "\n"

/-- Spec side: the trailer line noting the count of files beyond the
first ten, present exactly when more than ten summaries exist. -/
def trailer_line (file_summaries : List FileSummary) : String :=
  if 10 < file_summaries.length then
    "- ... and " ++ Nat.repr (file_summaries.length - 10) ++ " more files\n"
  else
    ""

/-- Events on the concurrency gate (the tokio semaphore of
`summarize_diff_segments`). -/
inductive GateEvent
  | acquire
  | release
deriving DecidableEq

/-- Gate events of one summarization unit: the permit is acquired before
the request is issued and its guard is dropped when the unit block ends,
on the success path, the timeout path and the provider-error path alike
(src/ai_client.rs lines 154 to 167). -/
def unitGateEvents : UnitOutcome → List GateEvent
  | .completed _ => [GateEvent.acquire, GateEvent.release]
  | .providerError _ => [GateEvent.acquire, GateEvent.release]
  | .timedOut => [GateEvent.acquire, GateEvent.release]

/-- Gate-event trace of one `summarize_diff_segments` invocation: the
futures are polled in submission order, so the events of unit `n`
conclude before unit `n + 1` begins, and after the first failing unit
the remaining units are never polled. -/
def gateTrace (kind : AiClientKind) (timeout_secs : Nat)
    (behavior : Nat → UnitOutcome) : Nat → List DiffSegment → List GateEvent
  | _, [] => []
  | i, segment :: rest =>
    unitGateEvents (behavior i) ++
      match run_unit kind timeout_secs (behavior i) segment with
      | Except.ok _ => gateTrace kind timeout_secs behavior (i + 1) rest
      | Except.error _ => []

/-- Effect of one gate event on the count of held permits. -/
def applyGateEvent (held : Nat) : GateEvent → Nat
  | GateEvent.acquire => held + 1
  | GateEvent.release => held - 1

/-- Largest number of simultaneously held permits over all prefixes of a
gate-event trace, starting from `held` permits held. -/
def maxHeld : Nat → List GateEvent → Nat
  | held, [] => held
  | held, e :: rest => max held (maxHeld (applyGateEvent held e) rest)

lemma accept_line_step_eq (expected_files : List String) (acc : List FileSummary)
    (line : String) :
    accept_line_step expected_files acc line =
      acc ++ (parseLineSpec expected_files line).toList := by
  unfold accept_line_step parseLineSpec fuzzyMatchSpec templateMarkers
  simp only [List.any_cons, List.any_nil, Bool.or_false, Bool.or_assoc]
  split
  next h => simp [h]
  next h =>
    rcases hs : splitOnceColon (rust_trim line) with _ | ⟨f, s⟩
    · simp [hs, h]
    · simp only [hs, h, if_false, if_neg]
      split
      next h2 => simp [h, h2]
      next h2 => simp [h, h2]

lemma foldl_accept_line_step (expected_files : List String) :
    ∀ (lines : List String) (acc : List FileSummary),
      lines.foldl (accept_line_step expected_files) acc =
        acc ++ lines.filterMap (parseLineSpec expected_files) := by
  intro lines
  induction lines with
  | nil => intro acc; simp
  | cons l ls ih =>
    intro acc
    simp only [List.foldl_cons, List.filterMap_cons]
    rw [accept_line_step_eq]
    cases h : parseLineSpec expected_files l <;> simp [h, ih]

/-- Length of the accepted pairs equals the fallback-free result. -/
lemma parse_file_summaries_of_accepted_ne_nil (content : String)
    (expected_files : List String)
    (h : accepted_summaries content expected_files ≠ []) :
    parse_file_summaries content expected_files =
      accepted_summaries content expected_files := by
  unfold parse_file_summaries
  simp only [List.isEmpty_iff]
  rw [if_neg]
  simp [h]

/-- C7: per-line parsing discipline.  The loop of `parse_file_summaries`
accepts exactly the lines described by the specification: each response
line is trimmed, discarded when blank or when it starts with a known
template header marker, otherwise split at the first colon with both
parts trimmed, and the pair is kept if and only if the candidate
filename fuzzily matches some expected file by substring containment in
either direction. -/
theorem parse_line_discipline (content : String) (expected_files : List String) :
    accepted_summaries content expected_files =
      (rustLines content).filterMap (parseLineSpec expected_files) := by
  unfold accepted_summaries
  rw [foldl_accept_line_step]
  simp

/-- C1: `parse_file_summaries` has no error path, and whenever zero
lines were accepted while the expected list is non-empty, it yields
exactly one FileSummary per expected file, in list order, each with the
fixed placeholder summary text. -/
theorem parse_file_summaries_total_with_fallback (content : String)
    (expected_files : List String) :
    parse_file_summaries_result content expected_files =
      Except.ok (parse_file_summaries content expected_files) ∧
    (accepted_summaries content expected_files = [] → expected_files ≠ [] →
      parse_file_summaries content expected_files =
        expected_files.map (fun filename => ⟨filename, fallbackSummaryText⟩)) := by
  refine ⟨rfl, ?_⟩
  intro hacc hne
  unfold parse_file_summaries
  simp [hacc, hne]

/-- Witness for C1 at a garbage response and two expected files. -/
theorem parse_file_summaries_total_with_fallback_witness :
    parse_file_summaries_result "@@@garbage@@@" ["a.rs", "b.rs"] =
      Except.ok (parse_file_summaries "@@@garbage@@@" ["a.rs", "b.rs"]) ∧
    parse_file_summaries "@@@garbage@@@" ["a.rs", "b.rs"] =
      [⟨"a.rs", fallbackSummaryText⟩, ⟨"b.rs", fallbackSummaryText⟩] :=
  ⟨(parse_file_summaries_total_with_fallback "@@@garbage@@@" ["a.rs", "b.rs"]).1,
    ((parse_file_summaries_total_with_fallback "@@@garbage@@@" ["a.rs", "b.rs"]).2
      (by decide) (by decide)).trans (by decide)⟩

/-- C4 counterexample: with one expected file and a response naming that
file on two lines, the parsed result has length 2, exceeding the number
of expected files; the claimed upper bound fails. -/
theorem parse_length_bound_counterexample :
    (parse_file_summaries "a: first\na: second" ["a"]).length = 2 ∧
    ¬ (parse_file_summaries "a: first\na: second" ["a"]).length ≤
        (["a"] : List String).length := by
  decide

/-- C4 amended: for arbitrary response text and every non-empty expected
list, the result length is at least 1 and at most the larger of the
number of expected files and the number of accepted response lines. -/
theorem parse_length_bounds (content : String) (expected_files : List String)
    (hne : expected_files ≠ []) :
    1 ≤ (parse_file_summaries content expected_files).length ∧
    (parse_file_summaries content expected_files).length ≤
      max expected_files.length (accepted_summaries content expected_files).length := by
  by_cases hacc : accepted_summaries content expected_files = []
  · unfold parse_file_summaries
    simp only [hacc]
    simp [hne, Nat.one_le_iff_ne_zero, List.length_pos]
  · rw [parse_file_summaries_of_accepted_ne_nil content expected_files hacc]
    constructor
    · exact Nat.one_le_iff_ne_zero.mpr (by simp [hacc])
    · exact le_max_right _ _

/-- Witness for C4 amended at a response with a repeated filename. -/
theorem parse_length_bounds_witness :
    1 ≤ (parse_file_summaries "b: one\nb: two" ["b"]).length ∧
    (parse_file_summaries "b: one\nb: two" ["b"]).length ≤
      max (["b"] : List String).length (accepted_summaries "b: one\nb: two" ["b"]).length :=
  parse_length_bounds "b: one\nb: two" ["b"] (by decide)

lemma summarize_units_error_of_first_failure (kind : AiClientKind) (tsecs : Nat)
    (behavior : Nat → UnitOutcome) :
    ∀ (segs : List DiffSegment) (n i : Nat) (h : i < segs.length) (e : String),
      run_unit kind tsecs (behavior (n + i)) (segs.get ⟨i, h⟩) = Except.error e →
      (∀ j (hj : j < segs.length), j < i →
        (run_unit kind tsecs (behavior (n + j)) (segs.get ⟨j, hj⟩)).isOk = true) →
      summarize_units kind tsecs behavior n segs = Except.error e := by
  intro segs
  induction segs with
  | nil => intro n i h e _ _; exact absurd h (by simp)
  | cons seg rest ih =>
    intro n i h e herr hok
    match i with
    | 0 =>
      rw [Nat.add_zero] at herr
      unfold summarize_units
      rw [show (seg :: rest).get ⟨0, h⟩ = seg from rfl] at herr
      rw [herr]
    | i' + 1 =>
      have h0 : (run_unit kind tsecs (behavior n) seg).isOk = true := by
        have := hok 0 (by simp) (Nat.succ_pos i')
        rwa [Nat.add_zero] at this
      unfold summarize_units
      rcases hr : run_unit kind tsecs (behavior n) seg with e0 | l0
      · rw [hr] at h0; simp [Except.isOk, Except.toBool] at h0
      · have hlen : i' < rest.length := Nat.lt_of_succ_lt_succ h
        have harith : n + (i' + 1) = (n + 1) + i' := by omega
        rw [harith] at herr
        have hrec := ih (n + 1) i' hlen e herr ?_
        · rw [hrec]
        · intro j hj hji
          have harith2 : (n + 1) + j = n + (j + 1) := by omega
          rw [harith2]
          exact hok (j + 1) (Nat.succ_lt_succ hj) (Nat.succ_lt_succ hji)

lemma summarize_units_ok_of_all_success (kind : AiClientKind) (tsecs : Nat)
    (behavior : Nat → UnitOutcome) :
    ∀ (segs : List DiffSegment) (n : Nat) (ls : List (List FileSummary)),
      ls.length = segs.length →
      (∀ i (h : i < segs.length) (h' : i < ls.length),
        run_unit kind tsecs (behavior (n + i)) (segs.get ⟨i, h⟩) =
          Except.ok (ls.get ⟨i, h'⟩)) →
      summarize_units kind tsecs behavior n segs = Except.ok ls.flatten := by
  intro segs
  induction segs with
  | nil =>
    intro n ls hlen _
    have : ls = [] := List.length_eq_zero.mp (by simpa using hlen)
    subst this
    rfl
  | cons seg rest ih =>
    intro n ls hlen hruns
    match ls with
    | [] => simp at hlen
    | l :: ls' =>
      have h0 := hruns 0 (by simp) (by simp)
      rw [Nat.add_zero] at h0
      rw [show (seg :: rest).get ⟨0, by simp⟩ = seg from rfl] at h0
      rw [show (l :: ls').get ⟨0, by simp⟩ = l from rfl] at h0
      unfold summarize_units
      rw [h0]
      have hlen' : ls'.length = rest.length := by simpa using hlen
      have hrec := ih (n + 1) ls' hlen' ?_
      · rw [hrec]
        simp
      · intro i hi hi'
        have harith : (n + 1) + i = n + (i + 1) := by omega
        rw [harith]
        exact hruns (i + 1) (Nat.succ_lt_succ hi) (Nat.succ_lt_succ hi')

/-- C2: fail-fast error propagation.  If the unit at index `i` fails
while every earlier unit succeeds, `summarize_diff_segments` returns
exactly that error and no FileSummary sequence at all. -/
theorem summarize_fail_fast (kind : AiClientKind) (tsecs : Nat)
    (behavior : Nat → UnitOutcome) (segments : List DiffSegment) (i : Nat)
    (e : String) (h : i < segments.length)
    (herr : run_unit kind tsecs (behavior i) (segments.get ⟨i, h⟩) = Except.error e)
    (hok : ∀ j (hj : j < segments.length), j < i →
      (run_unit kind tsecs (behavior j) (segments.get ⟨j, hj⟩)).isOk = true) :
    summarize_diff_segments kind tsecs behavior segments = Except.error e := by
  unfold summarize_diff_segments
  apply summarize_units_error_of_first_failure kind tsecs behavior segments 0 i h e
  · rwa [Nat.zero_add]
  · intro j hj hji
    rw [Nat.zero_add]
    exact hok j hj hji

/-- Witness for C2: three segments, unit 2 times out, units 1 and 3
succeed; the call returns the timeout error, not a truncated list. -/
theorem summarize_fail_fast_witness :
    summarize_diff_segments AiClientKind.ollama 30
        (fun n => if n == 1 then UnitOutcome.timedOut
          else UnitOutcome.completed (some "x"))
        [⟨"d1", ["a.rs"]⟩, ⟨"d2", ["b.rs"]⟩, ⟨"d3", ["c.rs"]⟩] =
      Except.error "Request timeout after 30s" :=
  summarize_fail_fast AiClientKind.ollama 30
    (fun n => if n == 1 then UnitOutcome.timedOut
      else UnitOutcome.completed (some "x"))
    [⟨"d1", ["a.rs"]⟩, ⟨"d2", ["b.rs"]⟩, ⟨"d3", ["c.rs"]⟩] 1
    "Request timeout after 30s" (by decide) (by decide) (by decide)

/-- C3: deterministic reassembly in submission order.  When every unit
succeeds with per-segment summary lists `ls`, the call returns exactly
the concatenation of those lists in segment-submission order; under the
oracle model the output is a function of the segments and their
responses only. -/
theorem summarize_submission_order (kind : AiClientKind) (tsecs : Nat)
    (behavior : Nat → UnitOutcome) (segments : List DiffSegment)
    (ls : List (List FileSummary)) (hlen : ls.length = segments.length)
    (hruns : ∀ i (h : i < segments.length) (h' : i < ls.length),
      run_unit kind tsecs (behavior i) (segments.get ⟨i, h⟩) =
        Except.ok (ls.get ⟨i, h'⟩)) :
    summarize_diff_segments kind tsecs behavior segments = Except.ok ls.flatten := by
  unfold summarize_diff_segments
  apply summarize_units_ok_of_all_success kind tsecs behavior segments 0 ls hlen
  intro i h h'
  rw [Nat.zero_add]
  exact hruns i h h'

/-- Witness for C3: two segments with parsed responses concatenate in
segment order. -/
theorem summarize_submission_order_witness :
    summarize_diff_segments AiClientKind.openai 60
        (fun n => if n == 0 then UnitOutcome.completed (some "a.rs: one")
          else UnitOutcome.completed (some "b.rs: two"))
        [⟨"d1", ["a.rs"]⟩, ⟨"d2", ["b.rs"]⟩] =
      Except.ok ([[⟨"a.rs", "one"⟩], [⟨"b.rs", "two"⟩]] :
        List (List FileSummary)).flatten :=
  summarize_submission_order AiClientKind.openai 60
    (fun n => if n == 0 then UnitOutcome.completed (some "a.rs: one")
      else UnitOutcome.completed (some "b.rs: two"))
    [⟨"d1", ["a.rs"]⟩, ⟨"d2", ["b.rs"]⟩]
    [[⟨"a.rs", "one"⟩], [⟨"b.rs", "two"⟩]] (by decide) (by decide)

/-- C5 counterexample: a single segment whose provider response mentions
the same file on two lines yields a final sequence with the same
filename twice, so the no-duplicate claim fails on the code. -/
theorem summarize_duplicate_counterexample :
    summarize_diff_segments AiClientKind.ollama 30
        (fun _ => UnitOutcome.completed (some "a: first\na: second"))
        [⟨"d", ["a"]⟩] =
      Except.ok [⟨"a", "first"⟩, ⟨"a", "second"⟩] ∧
    ¬ (List.map FileSummary.filename
        [(⟨"a", "first"⟩ : FileSummary), ⟨"a", "second"⟩]).Nodup := by
  decide

/-- C5 amended: the final sequence concatenates the per-segment parse
results without deduplication; filenames are pairwise distinct whenever
each segment contributes pairwise-distinct filenames and no filename
occurs in two segments contributions, while a response naming one file
on two accepted lines duplicates that filename. -/
theorem summarize_nodup_of_disjoint (kind : AiClientKind) (tsecs : Nat)
    (behavior : Nat → UnitOutcome) (segments : List DiffSegment)
    (ls : List (List FileSummary)) (hlen : ls.length = segments.length)
    (hruns : ∀ i (h : i < segments.length) (h' : i < ls.length),
      run_unit kind tsecs (behavior i) (segments.get ⟨i, h⟩) =
        Except.ok (ls.get ⟨i, h'⟩))
    (hnodup : ∀ l ∈ ls, (l.map FileSummary.filename).Nodup)
    (hdisj : ls.Pairwise (fun l₁ l₂ =>
      ∀ a ∈ l₁.map FileSummary.filename, a ∉ l₂.map FileSummary.filename)) :
    ∃ out, summarize_diff_segments kind tsecs behavior segments = Except.ok out ∧
      (out.map FileSummary.filename).Nodup := by
  refine ⟨ls.flatten, ?_, ?_⟩
  · unfold summarize_diff_segments
    apply summarize_units_ok_of_all_success kind tsecs behavior segments 0 ls hlen
    intro i h h'
    rw [Nat.zero_add]
    exact hruns i h h'
  · rw [List.map_flatten, List.nodup_flatten]
    constructor
    · intro s hs
      rcases List.mem_map.mp hs with ⟨l, hl, rfl⟩
      exact hnodup l hl
    · exact List.pairwise_map.mpr (hdisj.imp (fun {a b} hab => hab))

/-- Witness for C5 amended: two segments with distinct files give a
duplicate-free final sequence. -/
theorem summarize_nodup_of_disjoint_witness :
    ∃ out, summarize_diff_segments AiClientKind.ollama 30
        (fun n => if n == 0 then UnitOutcome.completed (some "a.rs: one")
          else UnitOutcome.completed (some "b.rs: two"))
        [⟨"d1", ["a.rs"]⟩, ⟨"d2", ["b.rs"]⟩] =
      Except.ok out ∧ (out.map FileSummary.filename).Nodup :=
  summarize_nodup_of_disjoint AiClientKind.ollama 30
    (fun n => if n == 0 then UnitOutcome.completed (some "a.rs: one")
      else UnitOutcome.completed (some "b.rs: two"))
    [⟨"d1", ["a.rs"]⟩, ⟨"d2", ["b.rs"]⟩]
    [[⟨"a.rs", "one"⟩], [⟨"b.rs", "two"⟩]] (by decide) (by decide)
    (by decide) (by decide)

lemma string_foldl_append_eq_join :
    ∀ (l : List String) (a : String), l.foldl (· ++ ·) a = a ++ String.join l := by
  intro l
  induction l with
  | nil => intro a; simp [String.join, String.append_empty]
  | cons x xs ih =>
    intro a
    show xs.foldl (· ++ ·) (a ++ x) = a ++ String.join (x :: xs)
    rw [ih]
    have hx : String.join (x :: xs) = x ++ String.join xs := by
      show xs.foldl (· ++ ·) ("" ++ x) = x ++ String.join xs
      rw [String.empty_append, ih]
    rw [hx, String.append_assoc]

lemma foldl_bullet (l : List FileSummary) :
    ∀ a : String,
      l.foldl (fun acc s => acc ++ ("- " ++ s.filename ++ ": " ++ s.summary ++ "\n")) a =
        a ++ String.join (l.map bullet_line) := by
  induction l with
  | nil => intro a; simp [String.join, String.append_empty]
  | cons x xs ih =>
    intro a
    simp only [List.foldl_cons, List.map_cons]
    rw [ih]
    have hx : String.join (bullet_line x :: xs.map bullet_line) =
        bullet_line x ++ String.join (xs.map bullet_line) := by
      show (xs.map bullet_line).foldl (· ++ ·) ("" ++ bullet_line x) = _
      rw [String.empty_append, string_foldl_append_eq_join]
    rw [hx]
    simp [bullet_line, String.append_assoc]

lemma file_details_eq (l : List FileSummary) :
    file_details l = String.join ((l.take 10).map bullet_line) ++ trailer_line l := by
  unfold file_details trailer_line
  simp only [gt_iff_lt]
  by_cases h : 10 < l.length
  · rw [if_pos h, if_pos h, foldl_bullet, String.empty_append]
  · rw [if_neg h, if_neg h, foldl_bullet, String.empty_append, String.append_empty]

/-- C6: the final request body renders the stats line, one bullet line
per summary for at most the first ten summaries in order, and exactly
when more than ten exist one trailer line counting the rest; no summary
beyond the tenth is enumerated, as the rendering depends only on the
first ten entries and the total count. -/
theorem generate_final_commit_message_contract (stats : DiffStats)
    (file_summaries : List FileSummary) :
    generate_final_commit_message_prompt stats file_summaries =
      "Âü∫‰∫é‰ª•‰∏ã‰ø°ÊÅØÁîüÊàêcommit messageÔºö\n\nÁªüËÆ°ÊëòË¶ÅÔºö\n" ++ stats_text stats ++
        "\n\nÊñá‰ª∂ÂèòÊõ¥ËØ¶ÊÉÖÔºö\n" ++
        String.join ((file_summaries.take 10).map bullet_line) ++
        trailer_line file_summaries ++
        "\n\nÁîüÊàêÁ¨¶Âêàconventional commitsÊ†ºÂºèÁöÑ‰∏ÄË°åcommit message„ÄÇ\nÊèèËø∞ÂøÖÈ°ª‰ª•Â∞èÂÜôÂ≠óÊØçÂºÄÂ§¥Ôºå‰∏çË∂ÖËøá72Â≠óÁ¨¶„ÄÇ" := by
  unfold generate_final_commit_message_prompt
  rw [file_details_eq]
  simp [String.append_assoc]

/-- C8: unit failure conditions.  A per-unit timeout fails the unit with
an error stating the configured duration in seconds, and a provider or
transport failure fails the unit with the upstream error text embedded
after a provider-naming lead text. -/
theorem unit_failure_modes (kind : AiClientKind) (tsecs : Nat)
    (seg : DiffSegment) (msg : String) :
    run_unit kind tsecs UnitOutcome.timedOut seg =
      Except.error ("Request timeout after " ++ Nat.repr tsecs ++ "s") ∧
    run_unit kind tsecs (UnitOutcome.providerError msg) seg =
      Except.error (apiErrorText kind msg) ∧
    ∃ leadText, apiErrorText kind msg = leadText ++ msg := by
  refine ⟨rfl, rfl, ?_⟩
  cases kind
  · exact ⟨"Ollama API error: ", rfl⟩
  · exact ⟨"OpenAI API error: ", rfl⟩

/-- C9: an empty segment sequence aborts the large-diff path of
`handle_commit` with a hard error before any completion call; the
equality holds for every completion oracle, so no completion response
can influence the outcome, and no commit message is produced. -/
theorem empty_segmentation_hard_error (kind : AiClientKind) (tsecs : Nat)
    (behavior : Nat → UnitOutcome) (stats : DiffStats)
    (finalResponse : String → Except String String) :
    handle_commit_large_diff kind tsecs behavior stats [] finalResponse =
      Except.error "Failed to segment diff for processing" := rfl

lemma gateTrace_maxHeld_le_one (kind : AiClientKind) (tsecs : Nat)
    (behavior : Nat → UnitOutcome) :
    ∀ (segs : List DiffSegment) (i : Nat),
      maxHeld 0 (gateTrace kind tsecs behavior i segs) ≤ 1 := by
  intro segs
  induction segs with
  | nil => intro i; simp [gateTrace, maxHeld]
  | cons seg rest ih =>
    intro i
    have hunit : unitGateEvents (behavior i) = [GateEvent.acquire, GateEvent.release] := by
      cases behavior i <;> rfl
    unfold gateTrace
    rw [hunit]
    rcases hr : run_unit kind tsecs (behavior i) seg with e | l
    · simp [maxHeld, applyGateEvent]
    · simp only [List.cons_append, List.nil_append]
      simp [maxHeld, applyGateEvent, Nat.max_le]
      exact ih (i + 1)

/-- C10: concurrency-gate discipline, over the gate-event trace of the
execution.  The source polls the unit futures one at a time in
submission order, so the trace never holds more than one permit, hence
never more than the configured limit when that limit is at least one;
and every unit balances its acquire with a release on each outcome path
(success, timeout, provider error). -/
theorem semaphore_discipline (kind : AiClientKind) (tsecs : Nat)
    (behavior : Nat → UnitOutcome) (segments : List DiffSegment)
    (concurrency_limit : Nat) (hpos : 1 ≤ concurrency_limit) :
    maxHeld 0 (gateTrace kind tsecs behavior 0 segments) ≤ concurrency_limit ∧
    ∀ outcome : UnitOutcome,
      (unitGateEvents outcome).count GateEvent.acquire =
        (unitGateEvents outcome).count GateEvent.release := by
  constructor
  · exact le_trans (gateTrace_maxHeld_le_one kind tsecs behavior segments 0) hpos
  · intro outcome
    cases outcome <;> rfl

/-- Witness for C10 at a concrete limit, segment list and oracle. -/
theorem semaphore_discipline_witness :
    maxHeld 0 (gateTrace AiClientKind.ollama 30 (fun _ => UnitOutcome.timedOut) 0
        [⟨"d1", ["a.rs"]⟩, ⟨"d2", ["b.rs"]⟩]) ≤ 4 ∧
    ∀ outcome : UnitOutcome,
      (unitGateEvents outcome).count GateEvent.acquire =
        (unitGateEvents outcome).count GateEvent.release :=
  semaphore_discipline AiClientKind.ollama 30 (fun _ => UnitOutcome.timedOut)
    [⟨"d1", ["a.rs"]⟩, ⟨"d2", ["b.rs"]⟩] 4 (by decide)

end AiCli
